import Mathlib

/-!
Verification of the REDstack deployment orchestrator against its
natural-language specification.  Each definition is a shallow embedding of
one function of the Python source (`redstack/ambari.py`,
`redstack/openstack.py`, `redstack/helper_functions.py`, `redstack/chef.py`,
`redstack/domain/cluster.py`, `redstack/domain/node.py`); theorems settle
the spec claims against those embeddings.
-/

namespace RedStack

/-! ## Ambari install-progress monitor (`ambari.py`, `Ambari._monitor_request`)

`_monitor_request` reads `request_status` and `progress_percent` from the
polled response and either returns a boolean `pending` flag or raises
`AmbariException` carrying the raw response.  The outcome below records, in
addition, whether the warning branch (the percent-greater-equal-95 grace
branch) was taken, since that branch only logs and then falls through to the
final `return True` of the function. -/

/-- Outcome of one step of `Ambari._monitor_request`:
`keepPolling w` models `return True` (with `w` true when the 95-percent
warning branch was taken first), `installDone` models `return False`, and
`raiseError s p` models `raise AmbariException` carrying the raw response
whose status is `s` and whose percent is `p`. -/
inductive MonitorOutcome where
  | keepPolling (warned : Bool)
  | installDone
  | raiseError (status : String) (percent : Int)
deriving DecidableEq, Repr

/-- Embedding of the branch structure of `Ambari._monitor_request`
(`ambari.py` lines 160-173): `TIMEDOUT` passes and reaches `return True`;
`COMPLETED` returns `False`; `PENDING` and `IN_PROGRESS` log and reach
`return True`; any other status logs a warning and reaches `return True`
when `percent >= 95`, and raises `AmbariException` with the raw response
otherwise. -/
def monitorRequest (status : String) (percent : Int) : MonitorOutcome :=
  if status = "TIMEDOUT" then MonitorOutcome.keepPolling false
  else if status = "COMPLETED" then MonitorOutcome.installDone
  else if status = "PENDING" ∨ status = "IN_PROGRESS" then MonitorOutcome.keepPolling false
  else if percent ≥ 95 then MonitorOutcome.keepPolling true
  else MonitorOutcome.raiseError status percent

/-- Embedding of the polling loop of `Ambari._start_install`
(`ambari.py` lines 117-119): `pending` starts true and each iteration calls
`_monitor_request` on the next observed response; `obs i` is the pair
(status, percent) returned by the i-th poll.  The loop is given explicit
fuel; `none` means the loop is still polling after `fuel` steps. -/
def installPoll (obs : Nat → String × Int) : Nat → Nat → Option (Except (String × Int) Unit)
  | _, 0 => none
  | i, fuel + 1 =>
    match monitorRequest (obs i).1 (obs i).2 with
    | MonitorOutcome.installDone => some (Except.ok ())
    | MonitorOutcome.raiseError s p => some (Except.error (s, p))
    | MonitorOutcome.keepPolling _ => installPoll obs (i + 1) fuel

/-- A response stream that always reports status FAILED at 96 percent. -/
def obsFailed96 : Nat → String × Int := fun _ => ("FAILED", 96)

/-! ## Generic retry executor (`helper_functions.py`, `retry`)

`retry(func, tries, exceptions, ...)` runs `func` up to `tries` times,
catching only exceptions of the supplied kinds; a caught exception on the
last iteration is re-raised, any other caught exception is logged and
followed by a `time.sleep(5)` before the next iteration; an exception
outside the supplied kinds is not caught and propagates at once.  The
operation is modelled as a function from the attempt index to a result or
an error kind. -/

/-- Result of a whole `retry` run: `ok` models a normal return, `raised`
models an exception escaping `retry` (either re-raised on the last try or
never caught), and `skipped` models the `tries = 0` case in which the
`for` loop body never runs and the function returns `None`. -/
inductive RetryResult (E A : Type) where
  | ok (a : A)
  | raised (e : E)
  | skipped
deriving DecidableEq, Repr

/-- Accounting for one `retry` run: the final result, the number of calls
made to the operation, and the number of sleeps performed. -/
structure RetryTrace (E A : Type) where
  result : RetryResult E A
  attempts : Nat
  sleeps : Nat
deriving DecidableEq, Repr

/-- Embedding of the loop of `retry` (`helper_functions.py` lines 64-71)
starting at loop index `i`: if `i < tries` the operation is called at index
`i`; a success returns; an error of retryable kind is re-raised when
`i = tries - 1` and otherwise followed by one sleep and the next iteration;
a non-retryable error propagates at once. -/
def retryFrom (f : Nat → Except E A) (retryable : E → Bool) (tries : Nat) :
    Nat → RetryTrace E A
  | i =>
    if _h : i < tries then
      match f i with
      | Except.ok a => ⟨RetryResult.ok a, 1, 0⟩
      | Except.error e =>
        if retryable e then
          if i = tries - 1 then ⟨RetryResult.raised e, 1, 0⟩
          else
            let t := retryFrom f retryable tries (i + 1)
            ⟨t.result, t.attempts + 1, t.sleeps + 1⟩
        else ⟨RetryResult.raised e, 1, 0⟩
    else ⟨RetryResult.skipped, 0, 0⟩
  termination_by i => tries - i

/-- Embedding of `retry(func, tries, exceptions)`: the loop of `retryFrom`
started at index 0. -/
def retryRun (f : Nat → Except E A) (retryable : E → Bool) (tries : Nat) :
    RetryTrace E A :=
  retryFrom f retryable tries 0

/-! ## Stack build polling (`openstack.py`, `Openstack._build_stack_from_template`)

After `heat.stacks.create`, the stack status is fetched and re-fetched in a
`while` loop as long as it equals `CREATE_IN_PROGRESS` (with a fixed sleep
between fetches).  Once the loop exits, `CREATE_COMPLETE` returns normally,
`CREATE_FAILED` runs `_cleanup_existing_resources` when at least one heat
stack remains and then raises `HeatException` with the status reason; any
other status falls off the end of the function, returning `None` without
raising. -/

/-- Terminal outcome of `_build_stack_from_template`: `success` is the
explicit `return` on `CREATE_COMPLETE`; `raisedHeat reason cleanupRan`
is the `HeatException` raised on `CREATE_FAILED` (with `cleanupRan` true
when the failure branch found a nonzero heat-stack list and ran the
cleanup pass first); `implicitNone status` is the implicit `return None`
reached on every remaining status. -/
inductive StackOutcome where
  | success
  | raisedHeat (reason : String) (cleanupRan : Bool)
  | implicitNone (status : String)
deriving DecidableEq, Repr

/-- Classification of a stack status once the `CREATE_IN_PROGRESS` loop of
`_build_stack_from_template` has exited (`openstack.py` lines 278-287).
`stackCount` is the length of the heat-stack list queried by the failure
branch. -/
def stackTerminal (status reason : String) (stackCount : Nat) : StackOutcome :=
  if status = "CREATE_COMPLETE" then StackOutcome.success
  else if status = "CREATE_FAILED" then
    StackOutcome.raisedHeat reason (decide (0 < stackCount))
  else StackOutcome.implicitNone status

/-- Embedding of the polling loop of `_build_stack_from_template`
(`openstack.py` lines 271-287): `obs i` is the (status, reason) pair of the
i-th fetch of the stack; the loop re-fetches while the status is
`CREATE_IN_PROGRESS` and otherwise stops and classifies.  Explicit fuel
bounds the number of fetches; `none` means the loop is still polling. -/
def buildStackPoll (obs : Nat → String × String) (stackCount : Nat) :
    Nat → Nat → Option StackOutcome
  | _, 0 => none
  | i, fuel + 1 =>
    if (obs i).1 = "CREATE_IN_PROGRESS" then buildStackPoll obs stackCount (i + 1) fuel
    else some (stackTerminal (obs i).1 (obs i).2 stackCount)

/-- A stack whose status reads `ROLLBACK_COMPLETE` on every fetch. -/
def obsRollback : Nat → String × String := fun _ => ("ROLLBACK_COMPLETE", "rollback happened")

/-- A stack that is in progress for two fetches and then complete. -/
def obsDemoComplete : Nat → String × String
  | 0 => ("CREATE_IN_PROGRESS", "")
  | 1 => ("CREATE_IN_PROGRESS", "")
  | _ => ("CREATE_COMPLETE", "")

/-! ## Project cleanup (`openstack.py`, `Openstack._cleanup_existing_resources`)

The project is modelled as the lists returned by the OpenStack listing
calls: heat stacks, floating IPs, servers and cinder volumes.  Servers and
volumes carry the id of the heat stack that owns them.  Deleting a stack
(`_destroy_existing_resources`) first deletes every floating IP of the
project in parallel (repository code), then deletes the stack and polls its
deletion to `DELETE_COMPLETE`; the environment model for the heat delete is
that the stack and the servers and volumes it owns disappear.  In this
deterministic model the delete succeeds on its first attempt, so the
3-attempt `retry` wrapper around `_destroy_existing_resources` collapses to
that first attempt. -/

/-- Lowercasing as performed by the `str.lower()` call of the single-stack
match in `_cleanup_existing_resources`, modelled characterwise over the
string's characters. -/
def strLower (s : String) : String := String.mk (s.data.map Char.toLower)

/-- One heat stack as listed by `heat.stacks.list`. -/
structure StackInfo where
  stack_name : String
  id : Nat
deriving DecidableEq, Repr

/-- The observable resource lists of the OpenStack project. -/
structure ProjectState where
  heatStacks : List StackInfo
  floatingIps : List Nat
  servers : List (String × Nat)
  volumes : List (String × Nat)
deriving DecidableEq, Repr

/-- The emptiness check of the settle loop of `_cleanup_existing_resources`
(`openstack.py` lines 312-314): floating IPs, servers and cinder volumes
are all empty (heat stacks are not part of this check). -/
def projectResourcesEmpty (st : ProjectState) : Bool :=
  st.floatingIps.isEmpty && st.servers.isEmpty && st.volumes.isEmpty

/-- A deletion API call performed during cleanup. -/
inductive DeleteCall where
  | fip (id : Nat)
  | stack (id : Nat)
deriving DecidableEq, Repr

/-- The `ExistingNonRedstackResourcesException` raised by
`_cleanup_existing_resources`, split by the two raise sites: more than one
stack listed, or leftover resources after the settle loop. -/
inductive CleanupError where
  | multipleStacks
  | leftovers (fips : List Nat) (servers : List (String × Nat)) (volumes : List (String × Nat))
deriving DecidableEq, Repr

/-- Effect on the project of `_destroy_existing_resources` on stack `sid`
(`openstack.py` lines 328-357): every floating IP of the project is deleted
(lines 339-341), then the stack is deleted and its deletion polled to
completion; the environment model of the heat delete removes the stack and
the servers and volumes owned by it. -/
def destroyStackEffect (st : ProjectState) (sid : Nat) : ProjectState :=
  { heatStacks := st.heatStacks.filter fun s => decide (s.id ≠ sid)
    floatingIps := []
    servers := st.servers.filter fun s => decide (s.2 ≠ sid)
    volumes := st.volumes.filter fun v => decide (v.2 ≠ sid) }

/-- Embedding of the settle loop of `_cleanup_existing_resources`
(`openstack.py` lines 311-324): `for i in range(retries)` checks whether
floating IPs, servers and volumes are all empty, breaks on success, raises
on the last iteration otherwise, and sleeps and re-checks in between.  The
recursion is on the remaining iteration count, with `i` the loop index (the
caller keeps `i + remaining = retries`); the project state is static in
this sequential model, so every re-check observes `st`. -/
def settleCheck (st : ProjectState) (retries : Nat) : Nat → Nat → Except CleanupError Unit
  | _, 0 => Except.ok ()
  | i, remaining + 1 =>
    if projectResourcesEmpty st then Except.ok ()
    else if i = retries - 1 then
      Except.error (CleanupError.leftovers st.floatingIps st.servers st.volumes)
    else settleCheck st retries (i + 1) remaining

/-- Embedding of `_cleanup_existing_resources` (`openstack.py` lines
289-326): raise when more than one stack is listed; when exactly one stack
is listed and its lowercased name equals the deployment stack name, destroy
it (floating IPs first, then the stack, with the bounded retry collapsing
in this deterministic model); then run the settle loop with the fixed
`self.retries = 5`.  The result carries the final project state and the
list of deletion calls performed. -/
def cleanupExistingResources (st : ProjectState) (deployStackName : String) :
    Except CleanupError (ProjectState × List DeleteCall) :=
  if st.heatStacks.length > 1 then Except.error CleanupError.multipleStacks
  else
    let step :=
      match st.heatStacks with
      | [s] =>
        if strLower s.stack_name = deployStackName then
          (destroyStackEffect st s.id,
            st.floatingIps.map DeleteCall.fip ++ [DeleteCall.stack s.id])
        else (st, ([] : List DeleteCall))
      | _ => (st, ([] : List DeleteCall))
    match settleCheck step.1 5 0 5 with
    | Except.ok _ => Except.ok step
    | Except.error e => Except.error e

/-- The project with no stacks, floating IPs, servers or volumes. -/
def emptyProject : ProjectState :=
  { heatStacks := [], floatingIps := [], servers := [], volumes := [] }

/-- A project whose only stack is foreign (name does not match the
deployment) and which has no floating IPs, servers or volumes. -/
def foreignQuietProject : ProjectState :=
  { heatStacks := [⟨"unrelated-stack", 7⟩], floatingIps := [], servers := [], volumes := [] }

/-! ## Rebuild precondition and retry classification (`openstack.py`,
`Openstack.rebuild`)

`rebuild` lists the servers, then raises `ConfigException` when
`deploy.key_name` or `deploy.cluster.private_key` is falsy (None or empty),
before starting any rebuild thread.  `ConfigException` is not among the
retryable kinds (`self.retry_exceptions` holds only the connection-failure
and index-error kinds), so `retry` would propagate it on the first
attempt. -/

/-- Python truthiness of an optional string: `None` and the empty string
are falsy. -/
def pyTruthy : Option String → Bool
  | none => false
  | some s => !s.isEmpty

/-- Error kinds around `Openstack.rebuild`: the two members of
`self.retry_exceptions` (`openstack.py` line 129) plus the
`ConfigException` raised by the precondition check. -/
inductive OstError where
  | connectFailure
  | indexError
  | configError
deriving DecidableEq, Repr

/-- The retryable set `self.retry_exceptions` of the `Openstack` class:
connection failures and index errors only. -/
def ostRetryExceptions : OstError → Bool
  | OstError.connectFailure => true
  | OstError.indexError => true
  | OstError.configError => false

/-- Embedding of the precondition phase of `Openstack.rebuild`
(`openstack.py` lines 189-201): after listing the servers, raise
`ConfigException` when `key_name` or `private_key` is falsy; otherwise a
rebuild thread is started for each listed server.  The second component is
the list of servers whose rebuild was started. -/
def rebuildPhase (key_name private_key : Option String) (servers : List String) :
    Except OstError Unit × List String :=
  if !pyTruthy key_name || !pyTruthy private_key then
    (Except.error OstError.configError, [])
  else
    (Except.ok (), servers)

/-! ## Pre-existing network detection (`openstack.py`,
`Openstack._use_existing_network`) -/

/-- Embedding of `_use_existing_network` (`openstack.py` lines 238-252):
true exactly when the router list has length 1, the subnet list length 1,
the network list length 2 and `deploy.try_existing_network` is set.  The
parameters are the lengths of the three listed collections. -/
def useExistingNetwork (routers subnets networks : Nat) (tryExisting : Bool) : Bool :=
  decide (routers = 1) && decide (subnets = 1) && decide (networks = 2) && tryExisting

/-- Which heat template `Openstack.build` generates. -/
inductive TemplateKind where
  | selfContained
  | existingNetwork
deriving DecidableEq, Repr

/-- Embedding of the template branch of `Openstack.build` (`openstack.py`
lines 157-172): the existing-network template when `_use_existing_network`
returns true, the self-contained template otherwise. -/
def templateChoice (routers subnets networks : Nat) (tryExisting : Bool) : TemplateKind :=
  if useExistingNetwork routers subnets networks tryExisting then TemplateKind.existingNetwork
  else TemplateKind.selfContained

/-! ## Chef convergence per node (`chef.py`, `Chef._converge_node`)

After the initial SSH reachability probe (assumed to succeed here), the
function loops: decrement `tries_left`, optionally install the chef agent,
run the knife command, return on exit status zero; on a non-zero status
raise `ChefException` naming the node when `tries_left` reached zero,
otherwise rebuild the node when `reformat_on_failure` is set and retry.
`exitCode k` is the exit status of the k-th execution of the knife
command. -/

/-- Counts of side effects performed by one `_converge_node` call: knife
executions, chef-agent installs, and node rebuilds. -/
structure ConvergeCount where
  execs : Nat
  installs : Nat
  rebuilds : Nat
deriving DecidableEq, Repr

/-- Outcome of `_converge_node`: normal return, `ChefException` naming the
node, or fuel exhaustion of the embedded loop (the Python loop has no bound
of its own). -/
inductive ConvergeOutcome where
  | success (trace : ConvergeCount)
  | chefError (nodeName : String) (trace : ConvergeCount)
  | outOfFuel
deriving DecidableEq, Repr

/-- Embedding of the retry loop of `_converge_node` (`chef.py` lines
179-229), carrying `tries_left` (an integer, as in the source, so that a
non-positive `chef_tries` never satisfies the `tries_left == 0` exit test)
and the running effect counts. -/
def convergeNodeLoop (exitCode : Nat → Int) (nodeName : String)
    (installChef reformatOnFailure : Bool) :
    Nat → Int → ConvergeCount → ConvergeOutcome
  | 0, _, _ => ConvergeOutcome.outOfFuel
  | fuel + 1, triesLeft, tr =>
    let triesLeft2 := triesLeft - 1
    let tr1 : ConvergeCount :=
      { tr with installs := tr.installs + (if installChef then 1 else 0) }
    let tr2 : ConvergeCount := { tr1 with execs := tr1.execs + 1 }
    if exitCode tr.execs = 0 then ConvergeOutcome.success tr2
    else if triesLeft2 = 0 then ConvergeOutcome.chefError nodeName tr2
    else
      let tr3 : ConvergeCount :=
        if reformatOnFailure then { tr2 with rebuilds := tr2.rebuilds + 1 } else tr2
      convergeNodeLoop exitCode nodeName installChef reformatOnFailure fuel triesLeft2 tr3

/-- Embedding of `_converge_node` with retry budget `chefTries`
(`deploy.chef_tries`), starting from zero effect counts. -/
def convergeNode (exitCode : Nat → Int) (nodeName : String) (chefTries : Int)
    (installChef reformatOnFailure : Bool) (fuel : Nat) : ConvergeOutcome :=
  convergeNodeLoop exitCode nodeName installChef reformatOnFailure fuel chefTries ⟨0, 0, 0⟩

/-- A knife command that exits with status 1 on every execution. -/
def alwaysFailingExit : Nat → Int := fun _ => 1

/-! ## Cluster domain model (`domain/node.py`, `domain/cluster.py`)

`Node.__init__` stores eleven attributes, all defaulting to `None` except
`primary`, which defaults to `False`.  `Cluster.__init__` has two paths: a
snapshot path that copies `ssh_user`, `private_key`, `key_name`,
`cluster_name`, `master_node` and `nodes` out of a JSON document (each node
rebuilt from exactly ten named fields, so `server_id` is not restored), and
a template path that generates nodes from a YAML topology template and
designates as `master_node` each generated node whose name equals the
template's `primary` entry (the last such assignment wins).
`Cluster.to_json` dumps the four scalar fields, every node's full
`__dict__` (which does include `server_id`), and the master node's
`__dict__`. -/

/-- One cluster member as stored by `Node.__init__` (`domain/node.py`). -/
structure Node where
  name : Option String
  fqdn : Option String
  internal_ip : Option String
  floating_ip : Option String
  server_id : Option String
  ram : Option Int
  role : Option String
  volume_size : Option Int
  flavor : Option String
  ambari_group : Option String
  primary : Bool
deriving DecidableEq, Repr

/-- One node entry of the persisted cluster snapshot: the `__dict__` of a
`Node` as dumped by `Cluster.to_json`. -/
structure NodeDoc where
  name : Option String
  fqdn : Option String
  internal_ip : Option String
  floating_ip : Option String
  server_id : Option String
  ram : Option Int
  role : Option String
  volume_size : Option Int
  flavor : Option String
  ambari_group : Option String
  primary : Bool
deriving DecidableEq, Repr

/-- The persisted cluster snapshot document produced by `Cluster.to_json`
and consumed by the JSON path of `Cluster.__init__`. -/
structure ClusterDoc where
  ssh_user : Option String
  private_key : Option String
  key_name : Option String
  cluster_name : Option String
  nodes : List NodeDoc
  master_node : NodeDoc
deriving DecidableEq, Repr

/-- An in-memory cluster: the fields assigned by `Cluster.__init__`. -/
structure Cluster where
  ssh_user : Option String
  private_key : Option String
  key_name : Option String
  cluster_name : Option String
  nodes : List Node
  master_node : Node
deriving DecidableEq, Repr

/-- The `__dict__` dump of a node performed by `Cluster.to_json`
(`domain/cluster.py` lines 96-105): every attribute, `server_id`
included. -/
def nodeToDoc (n : Node) : NodeDoc :=
  { name := n.name, fqdn := n.fqdn, internal_ip := n.internal_ip,
    floating_ip := n.floating_ip, server_id := n.server_id, ram := n.ram,
    role := n.role, volume_size := n.volume_size, flavor := n.flavor,
    ambari_group := n.ambari_group, primary := n.primary }

/-- Node reconstruction on the JSON path of `Cluster.__init__`
(`domain/cluster.py` lines 33-48): exactly ten named fields are read, so
`server_id` keeps its `None` default. -/
def nodeFromDoc (d : NodeDoc) : Node :=
  { name := d.name, fqdn := d.fqdn, internal_ip := d.internal_ip,
    floating_ip := d.floating_ip, server_id := none, ram := d.ram,
    role := d.role, volume_size := d.volume_size, flavor := d.flavor,
    ambari_group := d.ambari_group, primary := d.primary }

/-- Embedding of `Cluster.to_json` (`domain/cluster.py` lines 90-105) at
the level of the serialized document. -/
def clusterToJson (c : Cluster) : ClusterDoc :=
  { ssh_user := c.ssh_user, private_key := c.private_key,
    key_name := c.key_name, cluster_name := c.cluster_name,
    nodes := c.nodes.map nodeToDoc, master_node := nodeToDoc c.master_node }

/-- Embedding of the JSON path of `Cluster.__init__` (`domain/cluster.py`
lines 26-49): all fields are copied out of the document without any
validation of the `primary` flags or of the master node. -/
def clusterFromJson (d : ClusterDoc) : Cluster :=
  { ssh_user := d.ssh_user, private_key := d.private_key,
    key_name := d.key_name, cluster_name := d.cluster_name,
    nodes := d.nodes.map nodeFromDoc, master_node := nodeFromDoc d.master_node }

/-- The snapshot fields of a node as enumerated by the spec: every
attribute except `server_id`. -/
structure NodeSnapshot where
  name : Option String
  fqdn : Option String
  internal_ip : Option String
  floating_ip : Option String
  ram : Option Int
  role : Option String
  volume_size : Option Int
  flavor : Option String
  ambari_group : Option String
  primary : Bool
deriving DecidableEq, Repr

/-- Projection of a node onto its snapshot fields. -/
def Node.snapshot (n : Node) : NodeSnapshot :=
  { name := n.name, fqdn := n.fqdn, internal_ip := n.internal_ip,
    floating_ip := n.floating_ip, ram := n.ram, role := n.role,
    volume_size := n.volume_size, flavor := n.flavor,
    ambari_group := n.ambari_group, primary := n.primary }

/-! ### Template path of `Cluster.__init__` (`domain/cluster.py` lines 52-88) -/

/-- One entry of the `nodes` table of the topology template: the node-spec
key and the properties read by the template path. -/
structure NodeSpec where
  spec : String
  count : Nat
  runlist : String
  volume_size : Int
  flavor : String
  ambari_group : String
deriving DecidableEq, Repr

/-- The node names generated for one node spec (`domain/cluster.py` lines
66-72): the spec name itself when `count` is 1, otherwise the spec name
suffixed with 1..count. -/
def nodeNames (spec : String) (count : Nat) : List String :=
  if count = 1 then [spec]
  else (List.range count).map fun i => spec ++ toString (i + 1)

/-- One node built by the template path (`domain/cluster.py` lines 74-83):
the fqdn is the name followed by the fqdn address, the role is the spec's
runlist, and `primary` is set exactly when the name equals the template's
`primary` entry.  The remaining attributes keep their `None` defaults. -/
def mkTemplateNode (primaryName fqdnAddress : String) (p : NodeSpec) (nm : String) : Node :=
  { name := some nm, fqdn := some (nm ++ fqdnAddress), internal_ip := none,
    floating_ip := none, server_id := none, ram := none,
    role := some p.runlist, volume_size := some p.volume_size,
    flavor := some p.flavor, ambari_group := some p.ambari_group,
    primary := decide (nm = primaryName) }

/-- The full node list generated by the template path, in template order
(the source iterates a Python dict; the list fixes one such order). -/
def templateNodes (specs : List NodeSpec) (primaryName fqdnAddress : String) : List Node :=
  (specs.map fun p =>
    (nodeNames p.spec p.count).map (mkTemplateNode primaryName fqdnAddress p)).flatten

/-- The master-node assignment of the template path (`domain/cluster.py`
lines 85-86): while nodes are generated in order, each primary node
overwrites `master_node`, so the result is the last primary node, or no
assignment at all when no generated node is primary. -/
def templateMaster (nodes : List Node) : Option Node :=
  nodes.foldl (fun m n => if n.primary then some n else m) none

/-! ## Concrete inputs used by witnesses and counterexamples -/

/-- An operation that raises the same error kind on every attempt. -/
def retryDemoOp : Nat → Except Nat Nat := fun _ => Except.error 0

/-- A retryable-kind set containing every error kind. -/
def retryDemoRetryable : Nat → Bool := fun _ => true

/-- A project holding exactly one deployment stack (named `REDstack`, id 1)
together with one floating IP and a server and a volume owned by that
stack. -/
def matchedDemoProject : ProjectState :=
  { heatStacks := [⟨"REDstack", 1⟩], floatingIps := [10],
    servers := [("master", 1)], volumes := [("vol0", 1)] }

/-- A two-entry topology template: one master spec of count 1 and one
worker spec of count 2. -/
def demoSpecs : List NodeSpec :=
  [⟨"master", 1, "master.json", 100, "m1.xlarge", "masters"⟩,
   ⟨"worker", 2, "worker.json", 200, "m1.large", "slaves"⟩]

/-- The master node generated from `demoSpecs` by the template path. -/
def demoMasterNode : Node :=
  mkTemplateNode "master" ".example.com"
    ⟨"master", 1, "master.json", 100, "m1.xlarge", "masters"⟩ "master"

/-- A snapshot node entry whose `primary` flag is false. -/
def noPrimaryNodeDoc : NodeDoc :=
  { name := some "gateway", fqdn := some "gateway.example.com",
    internal_ip := some "10.0.0.5", floating_ip := some "1.2.3.4",
    server_id := none, ram := some 4096, role := some "worker.json",
    volume_size := some 100, flavor := some "m1.large",
    ambari_group := some "slave", primary := false }

/-- A well-formed snapshot document in which no node is primary and the
recorded master node is not primary either. -/
def noPrimaryClusterDoc : ClusterDoc :=
  { ssh_user := some "cloud-user", private_key := some "/opt/key",
    key_name := some "rskey", cluster_name := some "redstack",
    nodes := [noPrimaryNodeDoc], master_node := noPrimaryNodeDoc }

/-- What the claim asserts of a cleanup run over a project whose single
stack belongs to the deployment: the run succeeds, the stack deletion was
performed, and the final project has no floating IPs, servers or
volumes. -/
def CleanupMatchedSpec (st : ProjectState) (s : StackInfo) (dn : String) : Prop :=
  ∃ final dels,
    cleanupExistingResources st dn = Except.ok (final, dels) ∧
    final.floatingIps = [] ∧ final.servers = [] ∧ final.volumes = [] ∧
    DeleteCall.stack s.id ∈ dels

/-- The behaviour of a cleanup run over a project whose single stack is
foreign: nothing is deleted, and the run fails with the leftover-resource
conflict exactly when floating IPs, servers or volumes are present. -/
def CleanupForeignSpec (st : ProjectState) (dn : String) : Prop :=
  (projectResourcesEmpty st = true →
    cleanupExistingResources st dn = Except.ok (st, [])) ∧
  (projectResourcesEmpty st = false →
    cleanupExistingResources st dn =
      Except.error (CleanupError.leftovers st.floatingIps st.servers st.volumes))

/-! ## Helper lemmas -/

/-- The monitor loop never leaves the polling state on a stream that always
reports FAILED at 96 percent: the grace branch only logs a warning and
returns the pending flag. -/
theorem installPoll_failed96_none : ∀ (fuel i : Nat), installPoll obsFailed96 i fuel = none := by
  intro fuel
  induction fuel with
  | zero => intro i; rfl
  | succ n ih =>
    intro i
    simp only [installPoll, obsFailed96, monitorRequest]
    norm_num
    exact ih (i + 1)

/-- Unfolding `retryFrom` on a successful attempt. -/
theorem retryFrom_ok {f : Nat → Except E A} {r : E → Bool} {tries i : Nat} {a : A}
    (hlt : i < tries) (hf : f i = Except.ok a) :
    retryFrom f r tries i = ⟨RetryResult.ok a, 1, 0⟩ := by
  rw [retryFrom]
  simp [hlt, hf]

/-- Unfolding `retryFrom` on a non-retryable error: the exception is not
caught and propagates from this attempt. -/
theorem retryFrom_fatal {f : Nat → Except E A} {r : E → Bool} {tries i : Nat} {e : E}
    (hlt : i < tries) (hf : f i = Except.error e) (hr : r e = false) :
    retryFrom f r tries i = ⟨RetryResult.raised e, 1, 0⟩ := by
  rw [retryFrom]
  simp [hlt, hf, hr]

/-- Unfolding `retryFrom` on a retryable error caught on the last
iteration: the exception is re-raised. -/
theorem retryFrom_last {f : Nat → Except E A} {r : E → Bool} {tries i : Nat} {e : E}
    (hlt : i < tries) (hf : f i = Except.error e) (hr : r e = true)
    (hi : i = tries - 1) :
    retryFrom f r tries i = ⟨RetryResult.raised e, 1, 0⟩ := by
  rw [retryFrom, dif_pos hlt, hf]
  simp [hr, hi]

/-- Unfolding `retryFrom` on a retryable error before the last iteration:
one sleep, then the next iteration. -/
theorem retryFrom_again {f : Nat → Except E A} {r : E → Bool} {tries i : Nat} {e : E}
    (hlt : i < tries) (hf : f i = Except.error e) (hr : r e = true)
    (hi : ¬ i = tries - 1) :
    retryFrom f r tries i =
      ⟨(retryFrom f r tries (i + 1)).result,
        (retryFrom f r tries (i + 1)).attempts + 1,
        (retryFrom f r tries (i + 1)).sleeps + 1⟩ := by
  rw [retryFrom]
  simp [hlt, hf, hr, hi]

/-- Attempt and sleep accounting of the retry loop: starting at index `i`,
at most `tries - i` attempts are made and the sleep count is one less than
the attempt count. -/
theorem retryFrom_attempts_bound (f : Nat → Except E A) (r : E → Bool) (tries : Nat) :
    ∀ d i, tries - i = d → i < tries →
      (retryFrom f r tries i).attempts ≤ tries - i ∧
      (retryFrom f r tries i).sleeps + 1 = (retryFrom f r tries i).attempts := by
  intro d
  induction d with
  | zero => intro i hd hi; omega
  | succ n ih =>
    intro i hd hi
    cases hfi : f i with
    | ok a =>
      rw [retryFrom_ok hi hfi]
      exact ⟨by show 1 ≤ tries - i; omega, rfl⟩
    | error e =>
      cases hre : r e with
      | false =>
        rw [retryFrom_fatal hi hfi hre]
        exact ⟨by show 1 ≤ tries - i; omega, rfl⟩
      | true =>
        by_cases hlast : i = tries - 1
        · rw [retryFrom_last hi hfi hre hlast]
          exact ⟨by show 1 ≤ tries - i; omega, rfl⟩
        · have hi1 : i + 1 < tries := by omega
          obtain ⟨ha, hs⟩ := ih (i + 1) (by omega) hi1
          rw [retryFrom_again hi hfi hre hlast]
          constructor
          · show (retryFrom f r tries (i + 1)).attempts + 1 ≤ tries - i
            omega
          · show (retryFrom f r tries (i + 1)).sleeps + 1 + 1 =
              (retryFrom f r tries (i + 1)).attempts + 1
            omega

/-- A non-retryable error at attempt `k`, preceded only by retryable
errors, escapes the loop at attempt `k` exactly: `k - i + 1` attempts and
`k - i` sleeps happen from start index `i`. -/
theorem retryFrom_first_fatal (f : Nat → Except E A) (r : E → Bool) (tries : Nat) :
    ∀ d i k e, k - i = d → i ≤ k → k < tries →
      f k = Except.error e → r e = false →
      (∀ j, i ≤ j → j < k → ∃ e2, f j = Except.error e2 ∧ r e2 = true) →
      retryFrom f r tries i = ⟨RetryResult.raised e, k - i + 1, k - i⟩ := by
  intro d
  induction d with
  | zero =>
    intro i k e hd hik hk hf hr _
    have hik2 : i = k := by omega
    subst hik2
    rw [retryFrom_fatal hk hf hr]
    simp
  | succ n ih =>
    intro i k e hd hik hk hf hr hpre
    have hik2 : i < k := by omega
    obtain ⟨e2, hfe2, hre2⟩ := hpre i (Nat.le_refl i) hik2
    have hilt : i < tries := by omega
    have hlast : ¬ i = tries - 1 := by omega
    rw [retryFrom_again hilt hfe2 hre2 hlast,
      ih (i + 1) k e (by omega) (by omega) hk hf hr
        (fun j hj1 hj2 => hpre j (by omega) hj2)]
    show RetryTrace.mk (RetryResult.raised e) (k - (i + 1) + 1 + 1) (k - (i + 1) + 1) = _
    congr 1 <;> omega

/-- When every attempt up to the budget raises a retryable error, the loop
re-raises the error of the last attempt after making all remaining
attempts. -/
theorem retryFrom_exhaust (f : Nat → Except E A) (r : E → Bool) (tries : Nat) :
    ∀ d i, tries - i = d → i < tries →
      (∀ j, i ≤ j → j < tries → ∃ e2, f j = Except.error e2 ∧ r e2 = true) →
      ∃ e, f (tries - 1) = Except.error e ∧
        retryFrom f r tries i = ⟨RetryResult.raised e, tries - i, tries - i - 1⟩ := by
  intro d
  induction d with
  | zero => intro i hd hi; omega
  | succ n ih =>
    intro i hd hi hall
    by_cases hlast : i = tries - 1
    · obtain ⟨e, hf, hr⟩ := hall i (Nat.le_refl i) hi
      refine ⟨e, ?_, ?_⟩
      · rw [← hlast]; exact hf
      · rw [retryFrom_last hi hf hr hlast]
        show RetryTrace.mk (RetryResult.raised e) 1 0 = _
        congr 1 <;> omega
    · have hi1 : i + 1 < tries := by omega
      obtain ⟨e2, hf2, hr2⟩ := hall i (Nat.le_refl i) hi
      obtain ⟨e, hfe, htr⟩ := ih (i + 1) (by omega) hi1
        (fun j hj1 hj2 => hall j (by omega) hj2)
      refine ⟨e, hfe, ?_⟩
      rw [retryFrom_again hi hf2 hr2 hlast, htr]
      show RetryTrace.mk (RetryResult.raised e)
        (tries - (i + 1) + 1) (tries - (i + 1) - 1 + 1) = _
      congr 1 <;> omega

/-- The settle loop accepts immediately when the project resources are
empty. -/
theorem settleCheck_empty {st : ProjectState} (hq : projectResourcesEmpty st = true) :
    ∀ retries i remaining, settleCheck st retries i remaining = Except.ok () := by
  intro retries i remaining
  cases remaining with
  | zero => rfl
  | succ n => simp [settleCheck, hq]

/-- The settle loop raises the leftover-resource conflict when the project
resources are not empty: the state is static in this model, so the loop
reaches its last iteration and raises. -/
theorem settleCheck_leftovers {st : ProjectState} (hq : projectResourcesEmpty st = false)
    (retries : Nat) :
    ∀ remaining i, i + remaining = retries → 1 ≤ remaining →
      settleCheck st retries i remaining =
        Except.error (CleanupError.leftovers st.floatingIps st.servers st.volumes) := by
  intro remaining
  induction remaining with
  | zero => intro i hsum h1; omega
  | succ n ih =>
    intro i hsum h1
    by_cases hlast : i = retries - 1
    · simp [settleCheck, hq, hlast]
    · have hn : 1 ≤ n := by omega
      simp only [settleCheck, hq, Bool.false_eq_true, if_false, hlast, if_neg]
      exact ih (i + 1) (by omega) hn

/-- Every node generated by the template path is primary exactly when its
name equals the template's primary entry. -/
theorem templateNodes_primary_name (specs : List NodeSpec) (pn fq : String) :
    ∀ n ∈ templateNodes specs pn fq, n.primary = decide (n.name = some pn) := by
  intro n hn
  simp only [templateNodes, List.mem_flatten, List.mem_map] at hn
  obtain ⟨l, ⟨p, hp, rfl⟩, hnl⟩ := hn
  obtain ⟨nm, hnm, rfl⟩ := List.mem_map.1 hnl
  simp [mkTemplateNode]

/-- A fold that overwrites its accumulator with each element satisfying `p`
returns the accumulator unchanged when no element satisfies `p`. -/
theorem foldl_lastPick_nil (p : α → Bool) :
    ∀ (l : List α) (acc : Option α), l.filter p = [] →
      l.foldl (fun m n => if p n then some n else m) acc = acc := by
  intro l
  induction l with
  | nil => intro acc _; rfl
  | cons a l ih =>
    intro acc hf
    rw [List.filter_cons] at hf
    by_cases hp : p a
    · simp [hp] at hf
    · simp only [hp, Bool.false_eq_true, if_false] at hf
      rw [List.foldl_cons]
      simp only [hp, Bool.false_eq_true, if_false]
      exact ih acc hf

/-- A fold that overwrites its accumulator with each element satisfying `p`
returns the unique such element when the filter is a singleton. -/
theorem foldl_lastPick_singleton (p : α → Bool) :
    ∀ (l : List α) (acc : Option α) (m : α), l.filter p = [m] →
      l.foldl (fun acc2 n => if p n then some n else acc2) acc = some m := by
  intro l
  induction l with
  | nil => intro acc m h; simp at h
  | cons a l ih =>
    intro acc m hf
    rw [List.filter_cons] at hf
    by_cases hp : p a
    · rw [if_pos hp] at hf
      obtain ⟨rfl, hnil⟩ := List.cons_eq_cons.1 hf
      rw [List.foldl_cons]
      simp only [hp, if_true]
      exact foldl_lastPick_nil p l (some a) hnil
    · rw [if_neg hp] at hf
      rw [List.foldl_cons]
      simp only [hp, Bool.false_eq_true, if_false]
      exact ih acc m hf

/-- The stack-status loop started at index `i`: after `k` consecutive
`CREATE_IN_PROGRESS` observations followed by any other status, it stops
and classifies that status. -/
theorem buildStackPoll_terminates (obs : Nat → String × String) (c : Nat) :
    ∀ k i fuel, (∀ j, j < k → (obs (i + j)).1 = "CREATE_IN_PROGRESS") →
      (obs (i + k)).1 ≠ "CREATE_IN_PROGRESS" → k < fuel →
      buildStackPoll obs c i fuel = some (stackTerminal (obs (i + k)).1 (obs (i + k)).2 c) := by
  intro k
  induction k with
  | zero =>
    intro i fuel _ hterm hfuel
    obtain ⟨f, rfl⟩ : ∃ f, fuel = f + 1 := ⟨fuel - 1, by omega⟩
    simp only [Nat.add_zero] at hterm ⊢
    simp only [buildStackPoll]
    rw [if_neg hterm]
  | succ n ih =>
    intro i fuel hpre hterm hfuel
    obtain ⟨f, rfl⟩ : ∃ f, fuel = f + 1 := ⟨fuel - 1, by omega⟩
    have h0 : (obs i).1 = "CREATE_IN_PROGRESS" := by
      have := hpre 0 (by omega)
      rwa [Nat.add_zero] at this
    simp only [buildStackPoll]
    rw [if_pos h0]
    have hshift : i + (n + 1) = (i + 1) + n := by omega
    rw [hshift] at hterm ⊢
    exact ih (i + 1) f
      (fun j hj => by
        have hj2 := hpre (j + 1) (by omega)
        have : i + (j + 1) = (i + 1) + j := by omega
        rwa [this] at hj2)
      hterm (by omega)

/-- One failing iteration of the `_converge_node` loop that still has
budget left (rebuild disabled, chef install disabled). -/
theorem convergeNodeLoop_fail_step (exitCode : Nat → Int) (nodeName : String) (f : Nat)
    (tl : Int) (a b c : Nat) (hne : ¬ exitCode a = 0) (htl : ¬ tl - 1 = 0) :
    convergeNodeLoop exitCode nodeName false false (f + 1) tl ⟨a, b, c⟩ =
      convergeNodeLoop exitCode nodeName false false f (tl - 1) ⟨a + 1, b, c⟩ := by
  simp [convergeNodeLoop, hne, htl]

/-- The last failing iteration of the `_converge_node` loop: the budget is
exhausted and `ChefException` is raised naming the node. -/
theorem convergeNodeLoop_fail_last (exitCode : Nat → Int) (nodeName : String) (f : Nat)
    (tl : Int) (a b c : Nat) (hne : ¬ exitCode a = 0) (htl : tl - 1 = 0) :
    convergeNodeLoop exitCode nodeName false false (f + 1) tl ⟨a, b, c⟩ =
      ConvergeOutcome.chefError nodeName ⟨a + 1, b, c⟩ := by
  simp [convergeNodeLoop, hne, htl]

/-! ## Claim theorems -/

/-- C1, counterexample.  The claim states that a status outside TIMEDOUT,
COMPLETED, PENDING and IN_PROGRESS with percent at least 95 (e.g. FAILED at
96) is terminal success with a warning.  In the code the warning branch
falls through to `return True`, so FAILED at 96 keeps the install-polling
loop pending — it is not a terminal outcome, and a stream that stays at
FAILED/96 is polled forever. -/
theorem monitor_grace_not_terminal_counterexample :
    monitorRequest "FAILED" 96 = MonitorOutcome.keepPolling true
  ∧ monitorRequest "FAILED" 96 ≠ MonitorOutcome.installDone
  ∧ installPoll obsFailed96 0 9 = none := by
  refine ⟨by decide, by decide, installPoll_failed96_none 9 0⟩

/-- C1, amended.  One step of `Ambari._monitor_request` classifies the
response as follows: COMPLETED is terminal success; TIMEDOUT, PENDING and
IN_PROGRESS keep polling; any other status keeps polling with a warning
when `progress_percent` is at least 95 (rather than terminating with
success, as the claim stated) and raises `AmbariException` carrying the raw
response when the percent is below 95; consequently a stream that stays on
such a status at or above 95 percent is polled forever. -/
theorem monitor_request_classification (st : String) (p : Int) (fuel i : Nat)
    (h1 : st ≠ "TIMEDOUT") (h2 : st ≠ "COMPLETED")
    (h3 : st ≠ "PENDING") (h4 : st ≠ "IN_PROGRESS") :
    monitorRequest st p =
      (if p ≥ 95 then MonitorOutcome.keepPolling true
       else MonitorOutcome.raiseError st p)
  ∧ monitorRequest "COMPLETED" p = MonitorOutcome.installDone
  ∧ monitorRequest "TIMEDOUT" p = MonitorOutcome.keepPolling false
  ∧ monitorRequest "PENDING" p = MonitorOutcome.keepPolling false
  ∧ monitorRequest "IN_PROGRESS" p = MonitorOutcome.keepPolling false
  ∧ installPoll obsFailed96 i fuel = none := by
  refine ⟨?_, by simp [monitorRequest], by simp [monitorRequest],
    by simp [monitorRequest], by simp [monitorRequest],
    installPoll_failed96_none fuel i⟩
  simp [monitorRequest, h1, h2, h3, h4]

/-- C1, witness for `monitor_request_classification` at status FAILED and
percent 96. -/
theorem monitor_request_classification_witness :
    monitorRequest "FAILED" 96 = MonitorOutcome.keepPolling true
  ∧ installPoll obsFailed96 0 7 = none := by
  have h := monitor_request_classification "FAILED" 96 7 0
    (by decide) (by decide) (by decide) (by decide)
  exact ⟨by simpa using h.1, h.2.2.2.2.2⟩

/-- C2, counterexample.  The claim states that the stack-status loop keeps
polling on any status other than CREATE_COMPLETE and CREATE_FAILED.  In the
code the `while` loop only continues on CREATE_IN_PROGRESS: on the status
ROLLBACK_COMPLETE the loop exits at the very first fetch (one unit of fuel
suffices) and the function returns `None` without raising. -/
theorem stack_poll_other_status_counterexample :
    buildStackPoll obsRollback 0 0 1 =
      some (StackOutcome.implicitNone "ROLLBACK_COMPLETE")
  ∧ some (StackOutcome.implicitNone "ROLLBACK_COMPLETE") ≠
      some StackOutcome.success := by
  exact ⟨by decide, by decide⟩

/-- C2, amended.  The stack-status loop keeps polling only on
CREATE_IN_PROGRESS (not on every non-terminal status, as the claim
stated): after `k` CREATE_IN_PROGRESS observations followed by any other
status it stops there, classifying CREATE_COMPLETE as success,
CREATE_FAILED as a raised `HeatException` carrying the API-supplied reason
(with the cleanup pass run exactly when at least one heat stack remains),
and every other status as a silent `return None`. -/
theorem build_stack_poll_spec (obs : Nat → String × String) (c k fuel : Nat)
    (hpre : ∀ j, j < k → (obs j).1 = "CREATE_IN_PROGRESS")
    (hterm : (obs k).1 ≠ "CREATE_IN_PROGRESS")
    (hfuel : k < fuel) :
    buildStackPoll obs c 0 fuel = some (stackTerminal (obs k).1 (obs k).2 c)
  ∧ stackTerminal (obs k).1 (obs k).2 c =
      (if (obs k).1 = "CREATE_COMPLETE" then StackOutcome.success
       else if (obs k).1 = "CREATE_FAILED" then
         StackOutcome.raisedHeat (obs k).2 (decide (0 < c))
       else StackOutcome.implicitNone (obs k).1) := by
  constructor
  · have h := buildStackPoll_terminates obs c k 0 fuel
      (fun j hj => by simpa using hpre j hj) (by simpa using hterm) hfuel
    simpa using h
  · rfl

/-- C2, witness for `build_stack_poll_spec` on a stack that is in progress
twice and then complete. -/
theorem build_stack_poll_spec_witness :
    buildStackPoll obsDemoComplete 0 0 5 = some StackOutcome.success := by
  have h := build_stack_poll_spec obsDemoComplete 0 2 5
    (by decide) (by decide) (by decide)
  simpa [obsDemoComplete, stackTerminal] using h.1

/-- C3, confirmed.  For every operation, budget `tries` of at least 1 and
retryable-kind set, the `retry` helper calls the operation at most `tries`
times and sleeps exactly one time fewer than the attempts it made; an error
of a kind outside the retryable set propagates from the attempt that
raised it with no further attempts; and when every attempt errors
retryably, the error of the last attempt is re-raised after exactly `tries`
attempts. -/
theorem retry_executor_spec (f : Nat → Except E A) (r : E → Bool) (tries : Nat)
    (htries : 1 ≤ tries) :
    (retryRun f r tries).attempts ≤ tries
  ∧ (retryRun f r tries).sleeps + 1 = (retryRun f r tries).attempts
  ∧ (∀ k e, k < tries → f k = Except.error e → r e = false →
      (∀ j, j < k → ∃ e2, f j = Except.error e2 ∧ r e2 = true) →
      retryRun f r tries = ⟨RetryResult.raised e, k + 1, k⟩)
  ∧ ((∀ j, j < tries → ∃ e2, f j = Except.error e2 ∧ r e2 = true) →
      ∃ e, f (tries - 1) = Except.error e ∧
        retryRun f r tries = ⟨RetryResult.raised e, tries, tries - 1⟩) := by
  have h0 : 0 < tries := htries
  obtain ⟨ha, hs⟩ := retryFrom_attempts_bound f r tries tries 0 rfl h0
  refine ⟨by simpa using ha, hs, ?_, ?_⟩
  · intro k e hk hf hr hpre
    have h := retryFrom_first_fatal f r tries k 0 k e rfl (Nat.zero_le k) hk hf hr
      (fun j _ hj => hpre j hj)
    simpa [retryRun] using h
  · intro hall
    have h := retryFrom_exhaust f r tries tries 0 rfl h0 (fun j _ hj => hall j hj)
    simpa [retryRun] using h

/-- C3, witness for `retry_executor_spec`: an operation that raises a
retryable error on every attempt, with a budget of 3, is attempted exactly
3 times with 2 sleeps and its last error is re-raised. -/
theorem retry_executor_spec_witness :
    (retryRun retryDemoOp retryDemoRetryable 3).attempts ≤ 3
  ∧ (retryRun retryDemoOp retryDemoRetryable 3).sleeps + 1 =
      (retryRun retryDemoOp retryDemoRetryable 3).attempts
  ∧ ∃ e, retryDemoOp 2 = Except.error e ∧
      retryRun retryDemoOp retryDemoRetryable 3 = ⟨RetryResult.raised e, 3, 2⟩ := by
  have h := retry_executor_spec retryDemoOp retryDemoRetryable 3 (by decide)
  exact ⟨h.1, h.2.1, h.2.2.2 (fun j hj => ⟨0, rfl, rfl⟩)⟩

/-- C4, counterexample.  The claim states that with one foreign stack
(name not matching the deployment) cleanup raises
`ExistingNonRedstackResourcesException`.  In the code the single-stack
branch merely skips the deletion; the exception is raised only by the
leftover-resource settle loop, so a foreign stack that owns no floating
IPs, servers or volumes lets cleanup return success without touching
anything. -/
theorem cleanup_foreign_quiet_counterexample :
    cleanupExistingResources foreignQuietProject "redstack" =
      Except.ok (foreignQuietProject, [])
  ∧ foreignQuietProject.heatStacks = [⟨"unrelated-stack", 7⟩]
  ∧ strLower (StackInfo.mk "unrelated-stack" 7).stack_name ≠ "redstack" := by
  refine ⟨rfl, rfl, by decide⟩

/-- C4, amended.  On a project whose stack list is exactly one stack: when
its lowercased name equals the deployment's stack name and every server and
volume is owned by it, cleanup deletes the stack (its floating IPs first)
and succeeds with zero floating IPs, servers and volumes; when the name
does not match, cleanup deletes nothing and raises the conflict error
exactly when floating IPs, servers or volumes are present (not
unconditionally, as the claim stated). -/
theorem cleanup_single_stack_spec (st : ProjectState) (s : StackInfo) (dn : String)
    (hstacks : st.heatStacks = [s]) :
    (strLower s.stack_name = dn →
      (∀ sv ∈ st.servers, sv.2 = s.id) →
      (∀ v ∈ st.volumes, v.2 = s.id) →
      CleanupMatchedSpec st s dn)
  ∧ (strLower s.stack_name ≠ dn → CleanupForeignSpec st dn) := by
  constructor
  · intro hname hserv hvol
    have hempty : projectResourcesEmpty (destroyStackEffect st s.id) = true := by
      simp only [projectResourcesEmpty, destroyStackEffect, Bool.and_eq_true,
        List.isEmpty_iff]
      refine ⟨⟨trivial, ?_⟩, ?_⟩
      · rw [List.filter_eq_nil_iff]
        intro a ha
        simp [hserv a ha]
      · rw [List.filter_eq_nil_iff]
        intro a ha
        simp [hvol a ha]
    have hrun : cleanupExistingResources st dn =
        Except.ok (destroyStackEffect st s.id,
          st.floatingIps.map DeleteCall.fip ++ [DeleteCall.stack s.id]) := by
      unfold cleanupExistingResources
      rw [hstacks]
      simp [hname, settleCheck_empty hempty]
    unfold CleanupMatchedSpec
    refine ⟨destroyStackEffect st s.id,
      st.floatingIps.map DeleteCall.fip ++ [DeleteCall.stack s.id],
      hrun, rfl, ?_, ?_, by simp⟩
    · have := hempty
      simp only [projectResourcesEmpty, destroyStackEffect,
        List.isEmpty_iff, Bool.and_eq_true] at this
      exact this.1.2
    · have := hempty
      simp only [projectResourcesEmpty, destroyStackEffect,
        List.isEmpty_iff, Bool.and_eq_true] at this
      exact this.2
  · intro hname
    constructor
    · intro hq
      unfold cleanupExistingResources
      rw [hstacks]
      simp [hname, settleCheck_empty hq]
    · intro hq
      unfold cleanupExistingResources
      rw [hstacks]
      simp [hname, settleCheck_leftovers hq 5 5 0 rfl (by omega)]

/-- C4, witness for `cleanup_single_stack_spec`, applied once to a project
whose single stack matches the deployment and once to the foreign quiet
project. -/
theorem cleanup_single_stack_spec_witness :
    CleanupMatchedSpec matchedDemoProject ⟨"REDstack", 1⟩ "redstack"
  ∧ CleanupForeignSpec foreignQuietProject "redstack" := by
  constructor
  · exact (cleanup_single_stack_spec matchedDemoProject ⟨"REDstack", 1⟩ "redstack" rfl).1
      (by decide) (by decide) (by decide)
  · exact (cleanup_single_stack_spec foreignQuietProject ⟨"unrelated-stack", 7⟩ "redstack"
      rfl).2 (by decide)

/-- C5, confirmed.  A node whose knife command exits non-zero on every
execution, with `chef_tries = 3`, chef installation disabled and
rebuild-on-failure disabled, executes the command exactly 3 times, rebuilds
nothing, and then raises `ChefException` naming the node. -/
theorem converge_retry_exhaustion (exitCode : Nat → Int) (nodeName : String) (fuel : Nat)
    (hfail : ∀ n, exitCode n ≠ 0) :
    convergeNode exitCode nodeName 3 false false (fuel + 3) =
      ConvergeOutcome.chefError nodeName ⟨3, 0, 0⟩ := by
  show convergeNodeLoop exitCode nodeName false false ((fuel + 2) + 1) 3 ⟨0, 0, 0⟩ = _
  rw [convergeNodeLoop_fail_step exitCode nodeName (fuel + 2) 3 0 0 0
    (hfail 0) (by norm_num)]
  norm_num
  show convergeNodeLoop exitCode nodeName false false ((fuel + 1) + 1) 2 ⟨1, 0, 0⟩ = _
  rw [convergeNodeLoop_fail_step exitCode nodeName (fuel + 1) 2 1 0 0
    (hfail 1) (by norm_num)]
  norm_num
  rw [convergeNodeLoop_fail_last exitCode nodeName fuel 1 2 0 0
    (hfail 2) (by norm_num)]

/-- C5, witness for `converge_retry_exhaustion` on the always-failing
knife command. -/
theorem converge_retry_exhaustion_witness :
    convergeNode alwaysFailingExit "master" 3 false false 3 =
      ConvergeOutcome.chefError "master" ⟨3, 0, 0⟩ :=
  converge_retry_exhaustion alwaysFailingExit "master" 0
    (fun n => by simp [alwaysFailingExit])

/-- C6, counterexample.  The claim states that in every constructed
Cluster the master node is the unique primary member of the node list.  The
snapshot path of `Cluster.__init__` copies `primary` flags and the master
node out of the document without validation: loading a document in which no
node is primary yields a Cluster with no primary member and a non-primary
master node. -/
theorem cluster_json_no_primary_counterexample :
    ((clusterFromJson noPrimaryClusterDoc).nodes.filter fun n => n.primary) = []
  ∧ (clusterFromJson noPrimaryClusterDoc).master_node.primary = false := by
  exact ⟨rfl, rfl⟩

/-- C6, amended.  On the template path the invariant holds conditionally:
when exactly one generated node carries the template's primary name, that
node is the unique primary member of the node list and is the designated
master.  On the snapshot path the flags are copied unvalidated, so the
invariant can fail there (see the counterexample). -/
theorem template_master_invariant (specs : List NodeSpec) (pn fq : String) (m : Node)
    (huniq : (templateNodes specs pn fq).filter
      (fun n => decide (n.name = some pn)) = [m]) :
    (templateNodes specs pn fq).filter (fun n => n.primary) = [m]
  ∧ templateMaster (templateNodes specs pn fq) = some m
  ∧ m.primary = true
  ∧ m ∈ templateNodes specs pn fq := by
  have hfil : (templateNodes specs pn fq).filter (fun n => n.primary) = [m] := by
    rw [List.filter_congr (fun n hn => templateNodes_primary_name specs pn fq n hn)]
    exact huniq
  have hmem : m ∈ (templateNodes specs pn fq).filter (fun n => n.primary) := by
    rw [hfil]; exact List.mem_singleton.2 rfl
  have hmem2 := List.mem_filter.1 hmem
  exact ⟨hfil, foldl_lastPick_singleton _ _ _ _ hfil, hmem2.2, hmem2.1⟩

/-- C6, witness for `template_master_invariant` on the demo template of one
master spec and two workers. -/
theorem template_master_invariant_witness :
    templateMaster (templateNodes demoSpecs "master" ".example.com") =
      some demoMasterNode
  ∧ demoMasterNode.primary = true := by
  have h := template_master_invariant demoSpecs "master" ".example.com"
    demoMasterNode (by decide)
  exact ⟨h.2.1, h.2.2.1⟩

/-- C7, confirmed.  Serializing any Cluster with `to_json` and loading the
resulting document through the snapshot path of `Cluster.__init__` yields a
cluster equal on all snapshot fields: the four scalar credentials and
names, every node projected to its ten snapshot fields, and the master
node likewise (only the unserialized-on-read `server_id` may differ). -/
theorem cluster_snapshot_round_trip (c : Cluster) :
    (clusterFromJson (clusterToJson c)).ssh_user = c.ssh_user
  ∧ (clusterFromJson (clusterToJson c)).private_key = c.private_key
  ∧ (clusterFromJson (clusterToJson c)).key_name = c.key_name
  ∧ (clusterFromJson (clusterToJson c)).cluster_name = c.cluster_name
  ∧ (clusterFromJson (clusterToJson c)).nodes.map Node.snapshot =
      c.nodes.map Node.snapshot
  ∧ (clusterFromJson (clusterToJson c)).master_node.snapshot =
      c.master_node.snapshot := by
  refine ⟨rfl, rfl, rfl, rfl, ?_, rfl⟩
  show (c.nodes.map nodeToDoc |>.map nodeFromDoc).map Node.snapshot =
    c.nodes.map Node.snapshot
  rw [List.map_map, List.map_map]
  rfl

/-- C8, confirmed.  Cleanup on a project with no stacks, floating IPs,
servers or volumes performs no deletion calls and returns success, and a
second cleanup run chained on the result does the same (idempotence). -/
theorem cleanup_idempotent_on_empty (dn : String) :
    cleanupExistingResources emptyProject dn = Except.ok (emptyProject, [])
  ∧ (cleanupExistingResources emptyProject dn).bind
      (fun r => cleanupExistingResources r.1 dn) = Except.ok (emptyProject, []) := by
  exact ⟨rfl, rfl⟩

/-- C9, confirmed.  `Openstack.rebuild` on a deployment lacking a keypair
name or a private-key path raises `ConfigException` with no rebuild
started; `ConfigException` is outside the class retryable set, so even
under the `retry` helper it propagates after a single attempt. -/
theorem rebuild_missing_key_config_error (kn pk : Option String)
    (servers : List String) (t : Nat)
    (hmiss : pyTruthy kn = false ∨ pyTruthy pk = false) (ht : 1 ≤ t) :
    rebuildPhase kn pk servers = (Except.error OstError.configError, [])
  ∧ ostRetryExceptions OstError.configError = false
  ∧ retryRun (fun _ => (Except.error OstError.configError : Except OstError Unit))
      ostRetryExceptions t =
        ⟨RetryResult.raised OstError.configError, 1, 0⟩ := by
  refine ⟨?_, rfl, ?_⟩
  · cases hmiss with
    | inl h => simp [rebuildPhase, h]
    | inr h => simp [rebuildPhase, h]
  · exact retryFrom_fatal (by omega) rfl rfl

/-- C9, witness for `rebuild_missing_key_config_error` with a missing
keypair name and a retry budget of 5. -/
theorem rebuild_missing_key_config_error_witness :
    rebuildPhase none (some "/opt/key") ["master"] =
      (Except.error OstError.configError, [])
  ∧ retryRun (fun _ => (Except.error OstError.configError : Except OstError Unit))
      ostRetryExceptions 5 =
        ⟨RetryResult.raised OstError.configError, 1, 0⟩ := by
  have h := rebuild_missing_key_config_error none (some "/opt/key") ["master"] 5
    (Or.inl rfl) (by omega)
  exact ⟨h.1, h.2.2⟩

/-- C10, confirmed.  `_use_existing_network` returns true exactly when the
project has one router, one subnet and two networks and
`try_existing_network` is enabled, and `Openstack.build` generates the
self-contained template exactly when it returns false. -/
theorem use_existing_network_spec (r s n : Nat) (t : Bool) :
    (useExistingNetwork r s n t = true ↔ (r = 1 ∧ s = 1 ∧ n = 2 ∧ t = true))
  ∧ (templateChoice r s n t = TemplateKind.selfContained ↔
      ¬(r = 1 ∧ s = 1 ∧ n = 2 ∧ t = true))
  ∧ (templateChoice r s n t = TemplateKind.existingNetwork ↔
      (r = 1 ∧ s = 1 ∧ n = 2 ∧ t = true)) := by
  have h1 : useExistingNetwork r s n t = true ↔ (r = 1 ∧ s = 1 ∧ n = 2 ∧ t = true) := by
    simp [useExistingNetwork, and_assoc]
  refine ⟨h1, ?_, ?_⟩ <;>
    · by_cases h : useExistingNetwork r s n t = true
      · simp [templateChoice, h, h1.mp h, useExistingNetwork]
      · rw [← h1]
        simp [templateChoice, h]

end RedStack
